import Mathlib

/-!
# Smart Plant System — verification of the evaluation-and-arbitration core

Shallow embedding of the core logic of `web_application/main.py`:
the plant-status evaluator, the automatic-watering cooldown arbitration in
`receive_sensor_data`, the weather-forecast cache (`get_weather_forecast`
together with the cache invalidation in `update_settings`), the settings
defaults (`get_settings`), the device-command delivery
(`get_device_commands`) and the manual watering path (`manual_water`).

Python `float` values are modelled as rationals (`Rat`): every comparison
performed by the code is an order comparison between finite decimal values,
which rationals represent exactly. Wall-clock instants are modelled as
natural numbers counting minutes; `datetime` subtraction `now - t` compared
against a positive cutoff behaves the same as truncated `Nat` subtraction
for the comparisons the code makes (a negative timedelta and a zero
difference both fall below the cutoff).
-/

/-- A sensor reading, as the dict passed to `evaluate_plant_status`
(fields of `SensorData`). -/
structure Reading where
  temperature : Rat
  humidity : Rat
  light_level : Rat
deriving Repr, DecidableEq

/-- User-configured plant-care thresholds (row of the `settings` table /
`ThresholdUpdate` model). -/
structure Thresholds where
  min_humidity : Rat
  max_temp : Rat
  min_temp : Rat
  min_light : Rat
  max_light : Rat
  location : String
deriving Repr, DecidableEq

/-- The weather dict built by `get_weather_forecast`. -/
structure WeatherInfo where
  will_rain : Bool
  rain_amount : Rat
  condition : String
  location : String
deriving Repr, DecidableEq

/-- The recommendation strings appended by `evaluate_plant_status`, as a
tagged type carrying the interpolated values: one constructor per literal
message of the source. -/
inductive Recommendation where
  | needsWatering
  | rainExpected (amount : Rat)
  | tempTooHigh (t : Rat)
  | tempTooLow (t : Rat)
  | lightLow (l : Rat)
  | lightHigh (l : Rat)
deriving Repr, DecidableEq

/-- The dict returned by `evaluate_plant_status`; `status` keeps the
source's string literals ("Healthy", "Needs water", "Change position"). -/
structure Verdict where
  status : String
  recommendations : List Recommendation
  should_water : Bool
deriving Repr, DecidableEq

/-- `evaluate_plant_status(sensor_data, thresholds, weather_info)` of
`main.py`: humidity branch (gated on `will_rain`), temperature branch,
light branch, then the status bucket, and the returned `should_water`
is the flag conjoined with `not will_rain` as in the source's
`"should_water": should_water and not weather_info["will_rain"]`. -/
def evaluate_plant_status (sensor_data : Reading) (thresholds : Thresholds)
    (weather_info : WeatherInfo) : Verdict :=
  let hum :=
    if sensor_data.humidity < thresholds.min_humidity then
      if !weather_info.will_rain then
        ([Recommendation.needsWatering], true)
      else
        ([Recommendation.rainExpected weather_info.rain_amount], false)
    else ([], false)
  let recs1 := hum.1
  let should_water := hum.2
  let recs2 :=
    if sensor_data.temperature > thresholds.max_temp then
      recs1 ++ [Recommendation.tempTooHigh sensor_data.temperature]
    else if sensor_data.temperature < thresholds.min_temp then
      recs1 ++ [Recommendation.tempTooLow sensor_data.temperature]
    else recs1
  let recs3 :=
    if sensor_data.light_level < thresholds.min_light then
      recs2 ++ [Recommendation.lightLow sensor_data.light_level]
    else if sensor_data.light_level > thresholds.max_light then
      recs2 ++ [Recommendation.lightHigh sensor_data.light_level]
    else recs2
  let status :=
    if recs3 = [] then "Healthy"
    else if should_water then "Needs water"
    else "Change position"
  { status := status
    recommendations := recs3
    should_water := should_water && !weather_info.will_rain }

/-- `AUTO_WATERING_COOLDOWN = timedelta(minutes=30)`, in minutes. -/
def AUTO_WATERING_COOLDOWN : Nat := 30

/-- The FR8 cooldown block of `receive_sensor_data` (`main.py` lines
472–484), acting on the module-level `last_auto_watering_time`:

```
if should_water and last_auto_watering_time:
    if (now - last_auto_watering_time) < AUTO_WATERING_COOLDOWN:
        should_water = False
    else:
        last_auto_watering_time = now
elif should_water:
    last_auto_watering_time = now
```

Returns the final `should_water` (the permission sent to the device)
and the new `last_auto_watering_time`. -/
def apply_watering_cooldown (should_water : Bool) (last_auto_watering_time : Option Nat)
    (now : Nat) : Bool × Option Nat :=
  match should_water, last_auto_watering_time with
  | true, some t =>
      if now - t < AUTO_WATERING_COOLDOWN then (false, some t)
      else (true, some now)
  | true, none => (true, some now)
  | false, last => (false, last)

/-- The mutable module-level command/arbiter state of `main.py`: the
`device_commands` dict plus `last_auto_watering_time`. -/
structure CommandState where
  manual_water_cmd : Bool
  auto_watering_enabled : Bool
  last_auto_watering_time : Option Nat
deriving Repr, DecidableEq

/-- The `POST /api/manual-water` handler `manual_water` (`main.py` lines
690–709): sets `device_commands["manual_water"] = True` and returns a
success message; it touches no other state. -/
def manual_water (s : CommandState) : CommandState :=
  { s with manual_water_cmd := true }

/-- The `GET /api/device-commands` handler `get_device_commands`
(`main.py` lines 511–523): copies the current commands as the response,
then resets `manual_water` to `False`. Returns (response, new state). -/
def get_device_commands (s : CommandState) : CommandState × CommandState :=
  let commands := s
  (commands, { s with manual_water_cmd := false })

/-- `WEATHER_CACHE_DURATION = timedelta(hours=3)`, in minutes. -/
def WEATHER_CACHE_DURATION : Nat := 180

/-- A successful WeatherAPI response, reduced to the three fields
`get_weather_forecast` extracts (`daily_will_it_rain == 1`,
`totalprecip_mm`, current condition text). `none` models every failure:
non-200 status or a raised exception. -/
structure LookupResult where
  will_rain : Bool
  rain_amount : Rat
  condition : String
deriving Repr, DecidableEq

/-- The weather-related module state of `main.py`: `WEATHER_API_KEY`
(modelled as a Bool: configured or not), `cached_weather`,
`cached_weather_time`. -/
structure WeatherState where
  api_key : Bool
  cached_weather : Option WeatherInfo
  cached_weather_time : Option Nat
deriving Repr, DecidableEq

/-- The fresh-lookup part of `get_weather_forecast` (the `try` block and
the trailing fallback, `main.py` lines 190–238): on a 200 response build
the result dict, update both cache variables, and return it; on any
failure return the "Unknown" fallback and leave the cache untouched. -/
def fresh_weather_lookup (st : WeatherState) (location : String) (now : Nat)
    (lookup : Option LookupResult) : WeatherInfo × WeatherState :=
  match lookup with
  | some r =>
      let result : WeatherInfo :=
        { will_rain := r.will_rain
          rain_amount := r.rain_amount
          condition := r.condition
          location := location }
      (result, { st with cached_weather := some result, cached_weather_time := some now })
  | none =>
      ({ will_rain := false, rain_amount := 0, condition := "Unknown", location := location }, st)

/-- `get_weather_forecast(location)` (`main.py` lines 159–238): if no API
key is configured return the "API not configured" fallback; else if both
cache variables are set and the cache is younger than 3 hours return the
cached dict unchanged; otherwise perform a fresh lookup. Returns
(response, new state). -/
def get_weather_forecast (st : WeatherState) (location : String) (now : Nat)
    (lookup : Option LookupResult) : WeatherInfo × WeatherState :=
  if !st.api_key then
    ({ will_rain := false, rain_amount := 0, condition := "API not configured",
       location := location }, st)
  else
    match st.cached_weather, st.cached_weather_time with
    | some cw, some t =>
        if now - t < WEATHER_CACHE_DURATION then (cw, st)
        else fresh_weather_lookup st location now lookup
    | some _, none => fresh_weather_lookup st location now lookup
    | none, _ => fresh_weather_lookup st location now lookup

/-- The cache-invalidation step of `update_settings` (`main.py` lines
786–790): after writing the new settings row, if the stored location
differs from the new one, both cache variables are cleared. -/
def update_settings_weather (st : WeatherState) (old_location new_location : String) :
    WeatherState :=
  if old_location ≠ new_location then
    { st with cached_weather := none, cached_weather_time := none }
  else st

/-- The result of reading the `settings` table: an exception while
connecting/querying, or an optional first row. -/
inductive SettingsReadResult where
  | failure
  | ok (row : Option Thresholds)
deriving Repr, DecidableEq

/-- The default thresholds literal returned by `get_settings`
(`main.py` lines 347–354). -/
def default_thresholds : Thresholds :=
  { min_humidity := 30, max_temp := 35, min_temp := 15,
    min_light := 20, max_light := 80, location := "Cagliari" }

/-- `get_settings()` (`main.py` lines 316–354): return the configured row
when one exists; on no row, or on any exception, fall through to the
default thresholds. -/
def get_settings (db : SettingsReadResult) : Thresholds :=
  match db with
  | .ok (some row) => row
  | .ok none => default_thresholds
  | .failure => default_thresholds

/-- The "negative" statuses of the Alert De-duplicator: `NeedsWater`,
`ChangePosition` and `NoData`, as the source's status strings
("Needs water", "Change position"; "No data" is the Coordinator-level
sentinel used by `get_current_status`). -/
def negative_statuses : List String := ["Needs water", "Change position", "No data"]

/-- Modelled from the spec: the Alert De-duplicator (`should_notify`) is
not present under `src/` (§4.4 of the spec describes it; the repository
code in `src/` has no notification component). Per the spec's words:
"notify iff `new_status != last_emitted_status` AND `new_status ∈
{NeedsWater, ChangePosition, NoData}`", "with side effect of updating
`last_emitted_status = new_status` regardless of the boolean returned";
the initial `last_emitted_status` is an unset sentinel (here `none`)
that differs from every real status. Returns (notify?, new state). -/
def should_notify (last_emitted_status : Option String) (new_status : String) :
    Bool × Option String :=
  ((some new_status ≠ last_emitted_status ∧ new_status ∈ negative_statuses : Bool),
   some new_status)

/-- Runs the de-duplicator over a sequence of statuses from a given
`last_emitted_status`, collecting the notify decision at each position. -/
def notify_run (last_emitted_status : Option String) : List String → List Bool
  | [] => []
  | s :: rest => (should_notify last_emitted_status s).1 :: notify_run (some s) rest

/-- The cache-hit condition tested by `get_weather_forecast`
(`main.py` lines 185–186): both cache variables set and the cached entry
younger than `WEATHER_CACHE_DURATION`. -/
def weather_cache_valid (st : WeatherState) (now : Nat) : Bool :=
  match st.cached_weather, st.cached_weather_time with
  | some _, some t => now - t < WEATHER_CACHE_DURATION
  | _, _ => false

/-- The location-context invariant maintained around the weather cache:
whatever is cached was fetched for the currently configured location
(`update_settings` clears the cache whenever the location changes, and
every fetch site passes the configured `thresholds["location"]`). -/
def weather_cache_consistent (st : WeatherState) (location : String) : Bool :=
  match st.cached_weather with
  | some cw => cw.location == location
  | none => true

/-- C1: For every reading, thresholds and forecast, the Verdict returned by
`evaluate_plant_status` has `should_water = true` if and only if
`reading.humidity < thresholds.min_humidity` and `forecast.will_rain` is
false; in particular, whenever `will_rain` is true, `should_water` is false
regardless of every other field. -/
theorem evaluate_should_water_iff_dry_and_no_rain (sensor_data : Reading)
    (thresholds : Thresholds) (weather_info : WeatherInfo) :
    ((evaluate_plant_status sensor_data thresholds weather_info).should_water = true ↔
      sensor_data.humidity < thresholds.min_humidity ∧ weather_info.will_rain = false) ∧
    (weather_info.will_rain = true →
      (evaluate_plant_status sensor_data thresholds weather_info).should_water = false) := by
  cases hw : weather_info.will_rain <;>
    by_cases hh : sensor_data.humidity < thresholds.min_humidity <;>
      simp [evaluate_plant_status, hw, hh]

/-- C3: For every input, `evaluate_plant_status` returns status "Healthy"
exactly when the recommendations list is empty, "Needs water" exactly when
`should_water` was set true by the humidity branch (even if other
recommendations are also present), and "Change position" in every other
case with at least one recommendation; the "No data" status is never
produced by this function for any input. (The returned `should_water`
field coincides with the flag set by the humidity branch, since that flag
is only set when no rain is forecast.) -/
theorem evaluate_status_partition (sensor_data : Reading) (thresholds : Thresholds)
    (weather_info : WeatherInfo) :
    ((evaluate_plant_status sensor_data thresholds weather_info).status = "Healthy" ↔
      (evaluate_plant_status sensor_data thresholds weather_info).recommendations = []) ∧
    ((evaluate_plant_status sensor_data thresholds weather_info).status = "Needs water" ↔
      (evaluate_plant_status sensor_data thresholds weather_info).should_water = true) ∧
    ((evaluate_plant_status sensor_data thresholds weather_info).status = "Change position" ↔
      (evaluate_plant_status sensor_data thresholds weather_info).recommendations ≠ [] ∧
      (evaluate_plant_status sensor_data thresholds weather_info).should_water = false) ∧
    (evaluate_plant_status sensor_data thresholds weather_info).status ≠ "No data" := by
  cases hw : weather_info.will_rain <;>
    by_cases hh : sensor_data.humidity < thresholds.min_humidity <;>
      by_cases ht1 : sensor_data.temperature > thresholds.max_temp <;>
        by_cases ht2 : sensor_data.temperature < thresholds.min_temp <;>
          by_cases hl1 : sensor_data.light_level < thresholds.min_light <;>
            by_cases hl2 : sensor_data.light_level > thresholds.max_light <;>
              simp [evaluate_plant_status, hw, hh, ht1, ht2, hl1, hl2]

/-- C4: For every reading whose humidity equals `thresholds.min_humidity`
exactly (and likewise temperature equal to `max_temp` or `min_temp`, and
light equal to `min_light` or `max_light`), `evaluate_plant_status` treats
the boundary value as healthy: no corresponding recommendation is produced
and the status is never "Needs water" for the humidity case, because all
comparisons are strict `<` and `>`. -/
theorem evaluate_boundary_equality_healthy (sensor_data : Reading)
    (thresholds : Thresholds) (weather_info : WeatherInfo) :
    (sensor_data.humidity = thresholds.min_humidity →
      (evaluate_plant_status sensor_data thresholds weather_info).status ≠ "Needs water" ∧
      Recommendation.needsWatering ∉
        (evaluate_plant_status sensor_data thresholds weather_info).recommendations ∧
      (∀ a, Recommendation.rainExpected a ∉
        (evaluate_plant_status sensor_data thresholds weather_info).recommendations)) ∧
    (sensor_data.temperature = thresholds.max_temp →
      ∀ t, Recommendation.tempTooHigh t ∉
        (evaluate_plant_status sensor_data thresholds weather_info).recommendations) ∧
    (sensor_data.temperature = thresholds.min_temp →
      ∀ t, Recommendation.tempTooLow t ∉
        (evaluate_plant_status sensor_data thresholds weather_info).recommendations) ∧
    (sensor_data.light_level = thresholds.min_light →
      ∀ l, Recommendation.lightLow l ∉
        (evaluate_plant_status sensor_data thresholds weather_info).recommendations) ∧
    (sensor_data.light_level = thresholds.max_light →
      ∀ l, Recommendation.lightHigh l ∉
        (evaluate_plant_status sensor_data thresholds weather_info).recommendations) := by
  refine ⟨?_, ?_, ?_, ?_, ?_⟩ <;> intro h
  case _ =>
    have hh : ¬ sensor_data.humidity < thresholds.min_humidity := by
      rw [h]; exact lt_irrefl _
    cases hw : weather_info.will_rain <;>
      by_cases ht1 : sensor_data.temperature > thresholds.max_temp <;>
        by_cases ht2 : sensor_data.temperature < thresholds.min_temp <;>
          by_cases hl1 : sensor_data.light_level < thresholds.min_light <;>
            by_cases hl2 : sensor_data.light_level > thresholds.max_light <;>
              simp [evaluate_plant_status, hw, hh, ht1, ht2, hl1, hl2]
  case _ =>
    have ht1 : ¬ sensor_data.temperature > thresholds.max_temp := by
      rw [h]; exact lt_irrefl _
    cases hw : weather_info.will_rain <;>
      by_cases hh : sensor_data.humidity < thresholds.min_humidity <;>
        by_cases ht2 : sensor_data.temperature < thresholds.min_temp <;>
          by_cases hl1 : sensor_data.light_level < thresholds.min_light <;>
            by_cases hl2 : sensor_data.light_level > thresholds.max_light <;>
              simp [evaluate_plant_status, hw, hh, ht1, ht2, hl1, hl2]
  case _ =>
    have ht2 : ¬ sensor_data.temperature < thresholds.min_temp := by
      rw [h]; exact lt_irrefl _
    cases hw : weather_info.will_rain <;>
      by_cases hh : sensor_data.humidity < thresholds.min_humidity <;>
        by_cases ht1 : sensor_data.temperature > thresholds.max_temp <;>
          by_cases hl1 : sensor_data.light_level < thresholds.min_light <;>
            by_cases hl2 : sensor_data.light_level > thresholds.max_light <;>
              simp [evaluate_plant_status, hw, hh, ht1, ht2, hl1, hl2]
  case _ =>
    have hl1 : ¬ sensor_data.light_level < thresholds.min_light := by
      rw [h]; exact lt_irrefl _
    cases hw : weather_info.will_rain <;>
      by_cases hh : sensor_data.humidity < thresholds.min_humidity <;>
        by_cases ht1 : sensor_data.temperature > thresholds.max_temp <;>
          by_cases ht2 : sensor_data.temperature < thresholds.min_temp <;>
            by_cases hl2 : sensor_data.light_level > thresholds.max_light <;>
              simp [evaluate_plant_status, hw, hh, ht1, ht2, hl1, hl2]
  case _ =>
    have hl2 : ¬ sensor_data.light_level > thresholds.max_light := by
      rw [h]; exact lt_irrefl _
    cases hw : weather_info.will_rain <;>
      by_cases hh : sensor_data.humidity < thresholds.min_humidity <;>
        by_cases ht1 : sensor_data.temperature > thresholds.max_temp <;>
          by_cases ht2 : sensor_data.temperature < thresholds.min_temp <;>
            by_cases hl1 : sensor_data.light_level < thresholds.min_light <;>
              simp [evaluate_plant_status, hw, hh, ht1, ht2, hl1, hl2]

/-- Witness for C4: boundary readings against the default thresholds —
humidity exactly 30 never yields "Needs water"; temperature exactly 35 or
15 and light exactly 20 or 80 yield no corresponding recommendation. -/
theorem evaluate_boundary_equality_healthy_witness :
    (evaluate_plant_status ⟨25, 30, 50⟩ default_thresholds
      ⟨false, 0, "Sunny", "Cagliari"⟩).status ≠ "Needs water" ∧
    Recommendation.tempTooHigh 35 ∉ (evaluate_plant_status ⟨35, 50, 20⟩ default_thresholds
      ⟨false, 0, "Sunny", "Cagliari"⟩).recommendations ∧
    Recommendation.tempTooLow 15 ∉ (evaluate_plant_status ⟨15, 50, 80⟩ default_thresholds
      ⟨false, 0, "Sunny", "Cagliari"⟩).recommendations ∧
    Recommendation.lightLow 20 ∉ (evaluate_plant_status ⟨35, 50, 20⟩ default_thresholds
      ⟨false, 0, "Sunny", "Cagliari"⟩).recommendations ∧
    Recommendation.lightHigh 80 ∉ (evaluate_plant_status ⟨15, 50, 80⟩ default_thresholds
      ⟨false, 0, "Sunny", "Cagliari"⟩).recommendations :=
  ⟨((evaluate_boundary_equality_healthy ⟨25, 30, 50⟩ default_thresholds
      ⟨false, 0, "Sunny", "Cagliari"⟩).1 (by decide)).1,
   (evaluate_boundary_equality_healthy ⟨35, 50, 20⟩ default_thresholds
      ⟨false, 0, "Sunny", "Cagliari"⟩).2.1 (by decide) 35,
   (evaluate_boundary_equality_healthy ⟨15, 50, 80⟩ default_thresholds
      ⟨false, 0, "Sunny", "Cagliari"⟩).2.2.1 (by decide) 15,
   (evaluate_boundary_equality_healthy ⟨35, 50, 20⟩ default_thresholds
      ⟨false, 0, "Sunny", "Cagliari"⟩).2.2.2.1 (by decide) 20,
   (evaluate_boundary_equality_healthy ⟨15, 50, 80⟩ default_thresholds
      ⟨false, 0, "Sunny", "Cagliari"⟩).2.2.2.2 (by decide) 80⟩

/-- C2: Starting from an unset `last_auto_watering_time`, two evaluations
whose verdicts both have `should_water = true`, separated by less than 30
minutes, yield automatic-watering permissions (true, false); separated by
30 minutes or more, they yield (true, true); and every granted permission
immediately records the grant time as the new `last_auto_watering_time`. -/
theorem auto_watering_cooldown_pair (t1 t2 : Nat) (h : t1 ≤ t2) :
    (apply_watering_cooldown true none t1).1 = true ∧
    (apply_watering_cooldown true none t1).2 = some t1 ∧
    (t2 - t1 < 30 →
      (apply_watering_cooldown true (apply_watering_cooldown true none t1).2 t2).1 = false) ∧
    (30 ≤ t2 - t1 →
      (apply_watering_cooldown true (apply_watering_cooldown true none t1).2 t2).1 = true ∧
      (apply_watering_cooldown true (apply_watering_cooldown true none t1).2 t2).2 = some t2) ∧
    (∀ (sw : Bool) (last : Option Nat) (now : Nat),
      (apply_watering_cooldown sw last now).1 = true →
      (apply_watering_cooldown sw last now).2 = some now) := by
  refine ⟨rfl, rfl, ?_, ?_, ?_⟩
  · intro hlt
    simp [apply_watering_cooldown, AUTO_WATERING_COOLDOWN, hlt]
  · intro hge
    simp [apply_watering_cooldown, AUTO_WATERING_COOLDOWN, Nat.not_lt.mpr hge]
  · intro sw last now hgrant
    match sw, last with
    | false, last => simp [apply_watering_cooldown] at hgrant
    | true, none => rfl
    | true, some t =>
        by_cases hc : now - t < AUTO_WATERING_COOLDOWN
        · simp [apply_watering_cooldown, hc] at hgrant
        · simp [apply_watering_cooldown, hc]

/-- Witness for C2: first grant at minute 0; a second attempt at minute 10
is denied, while a second attempt at minute 30 is granted and re-stamps
the cooldown clock. -/
theorem auto_watering_cooldown_pair_witness :
    ((apply_watering_cooldown true none 0).1 = true ∧
      (apply_watering_cooldown true (apply_watering_cooldown true none 0).2 10).1 = false) ∧
    ((apply_watering_cooldown true none 0).1 = true ∧
      (apply_watering_cooldown true (apply_watering_cooldown true none 0).2 30).1 = true ∧
      (apply_watering_cooldown true (apply_watering_cooldown true none 0).2 30).2 = some 30) :=
  ⟨⟨(auto_watering_cooldown_pair 0 10 (by decide)).1,
    (auto_watering_cooldown_pair 0 10 (by decide)).2.2.1 (by decide)⟩,
   ⟨(auto_watering_cooldown_pair 0 30 (by decide)).1,
    ((auto_watering_cooldown_pair 0 30 (by decide)).2.2.2.1 (by decide)).1,
    ((auto_watering_cooldown_pair 0 30 (by decide)).2.2.2.1 (by decide)).2⟩⟩

/-- Counterexample for C5: a manual watering trigger (at minute 0, state
with `last_auto_watering_time` unset) leaves `last_auto_watering_time`
unset, and an automatic watering attempt one minute later with a
`should_water = true` verdict is granted — not denied as the claim
states. `manual_water` only sets the `manual_water` device command. -/
theorem manual_water_cooldown_counterexample :
    (manual_water ⟨false, false, none⟩).last_auto_watering_time = none ∧
    (apply_watering_cooldown true
      (manual_water ⟨false, false, none⟩).last_auto_watering_time 1).1 = true :=
  ⟨rfl, rfl⟩

/-- C5 (amended): Every manual watering trigger succeeds without a
cooldown check — it sets the pending `manual_water` device command and
touches nothing else — but it leaves `last_auto_watering_time` unchanged,
so a subsequent automatic watering attempt is decided exactly as if the
manual trigger had not happened (a manual watering does not suppress an
automatic one for the following 30 minutes). -/
theorem manual_water_updates_command_only (s : CommandState) :
    (manual_water s).manual_water_cmd = true ∧
    (manual_water s).auto_watering_enabled = s.auto_watering_enabled ∧
    (manual_water s).last_auto_watering_time = s.last_auto_watering_time ∧
    (∀ (sw : Bool) (now : Nat),
      apply_watering_cooldown sw (manual_water s).last_auto_watering_time now =
        apply_watering_cooldown sw s.last_auto_watering_time now) :=
  ⟨rfl, rfl, rfl, fun _ _ => rfl⟩

/-- C6: On every call to the forecast lookup (with an API key configured,
and with the cache consistent with the current location context), the
cached forecast is returned unchanged only if it exists, is for the
current location, and is less than 3 hours old; otherwise a fresh lookup
is performed — and a call after the configured location changes performs
a fresh lookup (on an emptied cache) even when the previous cache entry
is still within the 3-hour window. A hit also leaves the state untouched,
and a same-location call preserves the consistency invariant. -/
theorem weather_cache_hit_or_fresh (st : WeatherState) (location : String)
    (now : Nat) (lookup : Option LookupResult)
    (hkey : st.api_key = true)
    (hcons : weather_cache_consistent st location = true) :
    (weather_cache_valid st now = true →
      ∃ cw, st.cached_weather = some cw ∧ cw.location = location ∧
        get_weather_forecast st location now lookup = (cw, st)) ∧
    (weather_cache_valid st now = false →
      get_weather_forecast st location now lookup =
        fresh_weather_lookup st location now lookup) ∧
    weather_cache_consistent
      (get_weather_forecast st location now lookup).2 location = true ∧
    (∀ (new_location : String) (now2 : Nat) (lookup2 : Option LookupResult),
      new_location ≠ location →
      get_weather_forecast (update_settings_weather st location new_location)
          new_location now2 lookup2 =
        fresh_weather_lookup (update_settings_weather st location new_location)
          new_location now2 lookup2) := by
  obtain ⟨key, cw, ct⟩ := st
  simp only at hkey
  subst hkey
  refine ⟨?_, ?_, ?_, ?_⟩
  · intro hvalid
    match cw, ct with
    | some w, some t =>
        simp only [weather_cache_valid, decide_eq_true_eq] at hvalid
        simp only [weather_cache_consistent] at hcons
        exact ⟨w, rfl, eq_of_beq hcons, by simp [get_weather_forecast, hvalid]⟩
    | some w, none => simp [weather_cache_valid] at hvalid
    | none, t => simp [weather_cache_valid] at hvalid
  · intro hinvalid
    match cw, ct with
    | some w, some t =>
        simp only [weather_cache_valid, decide_eq_false_iff_not] at hinvalid
        simp [get_weather_forecast, hinvalid]
    | some w, none => simp [get_weather_forecast]
    | none, t => simp [get_weather_forecast]
  · match cw, ct with
    | some w, some t =>
        by_cases hv : now - t < WEATHER_CACHE_DURATION
        · simpa [get_weather_forecast, hv] using hcons
        · match lookup with
          | some r => simp [get_weather_forecast, hv, fresh_weather_lookup,
              weather_cache_consistent]
          | none => simpa [get_weather_forecast, hv, fresh_weather_lookup] using hcons
    | some w, none =>
        match lookup with
        | some r => simp [get_weather_forecast, fresh_weather_lookup,
            weather_cache_consistent]
        | none => simpa [get_weather_forecast, fresh_weather_lookup] using hcons
    | none, t =>
        match lookup with
        | some r => simp [get_weather_forecast, fresh_weather_lookup,
            weather_cache_consistent]
        | none => simp [get_weather_forecast, fresh_weather_lookup,
            weather_cache_consistent]
  · intro newLoc now2 lookup2 hne
    have : location ≠ newLoc := fun hgo => hne hgo.symm
    simp only [update_settings_weather, if_pos this]
    simp [get_weather_forecast]

/-- Witness for C6: with a "Cagliari" forecast cached at minute 0, a call
at minute 10 returns the cached dict unchanged; a call at minute 200
(past the 3-hour window) performs a fresh lookup; after changing the
location to "Roma" a call at minute 10 performs a fresh lookup despite
the window. -/
theorem weather_cache_hit_or_fresh_witness :
    get_weather_forecast ⟨true, some ⟨false, 0, "Sunny", "Cagliari"⟩, some 0⟩ "Cagliari" 10
        (some ⟨true, 5, "Rain"⟩) =
      (⟨false, 0, "Sunny", "Cagliari"⟩, ⟨true, some ⟨false, 0, "Sunny", "Cagliari"⟩, some 0⟩) ∧
    get_weather_forecast ⟨true, some ⟨false, 0, "Sunny", "Cagliari"⟩, some 0⟩ "Cagliari" 200
        (some ⟨true, 5, "Rain"⟩) =
      fresh_weather_lookup ⟨true, some ⟨false, 0, "Sunny", "Cagliari"⟩, some 0⟩ "Cagliari" 200
        (some ⟨true, 5, "Rain"⟩) ∧
    get_weather_forecast
        (update_settings_weather ⟨true, some ⟨false, 0, "Sunny", "Cagliari"⟩, some 0⟩
          "Cagliari" "Roma") "Roma" 10 (some ⟨true, 5, "Rain"⟩) =
      fresh_weather_lookup
        (update_settings_weather ⟨true, some ⟨false, 0, "Sunny", "Cagliari"⟩, some 0⟩
          "Cagliari" "Roma") "Roma" 10 (some ⟨true, 5, "Rain"⟩) := by
  have h10 := weather_cache_hit_or_fresh
    ⟨true, some ⟨false, 0, "Sunny", "Cagliari"⟩, some 0⟩ "Cagliari" 10
    (some ⟨true, 5, "Rain"⟩) rfl (by decide)
  have h200 := weather_cache_hit_or_fresh
    ⟨true, some ⟨false, 0, "Sunny", "Cagliari"⟩, some 0⟩ "Cagliari" 200
    (some ⟨true, 5, "Rain"⟩) rfl (by decide)
  obtain ⟨cw, hc, -, he⟩ := h10.1 (by decide)
  refine ⟨?_, h200.2.1 (by decide),
    h10.2.2.2 "Roma" 10 (some ⟨true, 5, "Rain"⟩) (by decide)⟩
  injection hc with hcw
  subst hcw
  exact he

/-- C7: Whenever the forecast lookup fails (missing API credential,
non-success HTTP response, or a raised exception — the latter two being
`lookup = none`), `get_weather_forecast` returns the fallback forecast
`{will_rain: false, rain_amount: 0, condition: "Unknown" or
"API not configured", location}` and the cached forecast and its
timestamp are left unchanged by the call. -/
theorem weather_lookup_failure_fallback (st : WeatherState) (location : String)
    (now : Nat) :
    (get_weather_forecast st location now none).2 = st ∧
    (st.api_key = false →
      get_weather_forecast st location now none =
        ({ will_rain := false, rain_amount := 0, condition := "API not configured",
           location := location }, st)) ∧
    (st.api_key = true → weather_cache_valid st now = false →
      get_weather_forecast st location now none =
        ({ will_rain := false, rain_amount := 0, condition := "Unknown",
           location := location }, st)) := by
  obtain ⟨key, cw, ct⟩ := st
  cases key
  · refine ⟨rfl, fun _ => rfl, ?_⟩
    intro hk
    exact absurd hk (by simp)
  · refine ⟨?_, ?_, ?_⟩
    · match cw, ct with
      | some w, some t =>
          by_cases hv : now - t < WEATHER_CACHE_DURATION
          · simp [get_weather_forecast, hv]
          · simp [get_weather_forecast, hv, fresh_weather_lookup]
      | some w, none => simp [get_weather_forecast, fresh_weather_lookup]
      | none, t => simp [get_weather_forecast, fresh_weather_lookup]
    · intro hk
      exact absurd hk (by simp)
    · intro _ hinvalid
      match cw, ct with
      | some w, some t =>
          simp only [weather_cache_valid, decide_eq_false_iff_not] at hinvalid
          simp [get_weather_forecast, hinvalid, fresh_weather_lookup]
      | some w, none => simp [get_weather_forecast, fresh_weather_lookup]
      | none, t => simp [get_weather_forecast, fresh_weather_lookup]

/-- Witness for C7: with no API key the call returns the
"API not configured" fallback and the unchanged state; with a key but an
empty cache and a failing lookup it returns the "Unknown" fallback and
the unchanged state. -/
theorem weather_lookup_failure_fallback_witness :
    get_weather_forecast ⟨false, none, none⟩ "Cagliari" 0 none =
      ({ will_rain := false, rain_amount := 0, condition := "API not configured",
         location := "Cagliari" }, ⟨false, none, none⟩) ∧
    get_weather_forecast ⟨true, none, none⟩ "Cagliari" 0 none =
      ({ will_rain := false, rain_amount := 0, condition := "Unknown",
         location := "Cagliari" }, ⟨true, none, none⟩) :=
  ⟨(weather_lookup_failure_fallback ⟨false, none, none⟩ "Cagliari" 0).2.1 rfl,
   (weather_lookup_failure_fallback ⟨true, none, none⟩ "Cagliari" 0).2.2 rfl rfl⟩

/-- C8: For every sequence of processed verdict statuses, a notification
is emitted at exactly those positions where the new status differs from
the last emitted status and the new status is negative ("Needs water",
"Change position" or "No data"), the initial unset sentinel differing
from every real status; the state is updated to the new status on every
call regardless; and the example sequence [Healthy, NeedsWater,
NeedsWater, ChangePosition, Healthy, NeedsWater] notifies exactly at
indices 1, 3, 5. -/
theorem dedupe_notify_rule :
    (∀ (last_emitted_status : Option String) (statuses : List String),
      notify_run last_emitted_status statuses =
        (List.zip (last_emitted_status :: statuses.map some) statuses).map
          (fun p => decide (some p.2 ≠ p.1 ∧ p.2 ∈ negative_statuses))) ∧
    (∀ (last : Option String) (s : String), (should_notify last s).2 = some s) ∧
    notify_run none
        ["Healthy", "Needs water", "Needs water", "Change position", "Healthy",
         "Needs water"] =
      [false, true, false, true, false, true] := by
  refine ⟨?_, fun _ _ => rfl, by decide⟩
  intro last statuses
  induction statuses generalizing last with
  | nil => rfl
  | cons s rest ih =>
      simp only [notify_run, should_notify, List.map_cons, List.zip_cons_cons,
        ih (some s)]

/-- C9: Whenever no thresholds row is configured, or reading the settings
store fails, `get_settings` returns the documented default thresholds
{min_humidity: 30, max_temp: 35, min_temp: 15, min_light: 20,
max_light: 80, location: "Cagliari"} rather than raising an error. -/
theorem get_settings_defaults :
    get_settings (.ok none) = default_thresholds ∧
    get_settings .failure = default_thresholds ∧
    default_thresholds =
      { min_humidity := 30, max_temp := 35, min_temp := 15,
        min_light := 20, max_light := 80, location := "Cagliari" } :=
  ⟨rfl, rfl, rfl⟩

/-- C10: Every call to `get_device_commands` returns a snapshot of the
command state as it was before the call and then sets `manual_water` to
false while leaving `auto_watering_enabled` (and the rest of the state)
unchanged, so a pending manual-water command is delivered to the polling
device at most once: a second call with no intervening manual trigger
returns `manual_water = false`. -/
theorem device_commands_reset_after_read (s : CommandState) :
    (get_device_commands s).1 = s ∧
    (get_device_commands s).2.manual_water_cmd = false ∧
    (get_device_commands s).2.auto_watering_enabled = s.auto_watering_enabled ∧
    (get_device_commands s).2.last_auto_watering_time = s.last_auto_watering_time ∧
    (get_device_commands (get_device_commands s).2).1.manual_water_cmd = false :=
  ⟨rfl, rfl, rfl, rfl, rfl⟩
